import Mathlib

/-!
Verification of the financial simulator's projection engine
(`src/financial_simulator.py`), shallowly embedded over ℚ.

Python floats are idealised as exact rationals; a Python
`ZeroDivisionError` is modelled as `none` of an `Option` result, since the
script performs true division (`/`) and `**`, both of which raise on a zero
divisor (respectively a zero base with negative exponent).
-/

/-- Source line 86: `fv_savings = p * (1 + r)**t`. -/
def fv_savings (p r : ℚ) (t : ℤ) : ℚ := p * (1 + r) ^ t

/-- Source line 87: `fv_contributions = c * (((1 + r)**t - 1) / r) * (1 + r)`. -/
def fv_contributions (c r : ℚ) (t : ℤ) : ℚ :=
  c * (((1 + r) ^ t - 1) / r) * (1 + r)

/-- Source line 88: the value `fv_savings + fv_contributions` returned by
`calculate_future_value` when no exception is raised. -/
def fv_total (p c r : ℚ) (t : ℤ) : ℚ := fv_savings p r t + fv_contributions c r t

/-- Source lines 85–88, `calculate_future_value(p, c, r, t)`.  The function
body contains no guard at all: when `r = 0` the division `((1+r)**t - 1) / r`
raises `ZeroDivisionError` (modelled as `none`), and when `1 + r = 0` with a
negative exponent `t`, `(1 + r)**t` raises (also `none`).  Otherwise it
returns the sum of the two terms. -/
def calculate_future_value (p c r : ℚ) (t : ℤ) : Option ℚ :=
  if r = 0 then none
  else if 1 + r = 0 ∧ t < 0 then none
  else some (fv_total p c r t)

/-- The future-value formula exactly as the spec writes it in §4.1:
`fv = p·(1+r)^t + c·(((1+r)^t − 1)/r)·(1+r)`.  Kept separate from the
source embedding so the two can be compared. -/
def spec_fv (p c r : ℚ) (t : ℤ) : ℚ :=
  p * (1 + r) ^ t + c * (((1 + r) ^ t - 1) / r) * (1 + r)

/-- Source line 91: `real_return = annual_return - inflation_rate`. -/
def real_return (annual_return inflation_rate : ℚ) : ℚ :=
  annual_return - inflation_rate

/-- Source line 92: the base projection
`calculate_future_value(current_savings, monthly_contribution * 12, real_return, time_horizon)`. -/
def future_value (current_savings monthly_contribution annual_return inflation_rate : ℚ)
    (time_horizon : ℤ) : Option ℚ :=
  calculate_future_value current_savings (monthly_contribution * 12)
    (real_return annual_return inflation_rate) time_horizon

/-- Source line 95: `inflation_adjusted_goal = goal_amount * (1 + inflation_rate)**time_horizon`. -/
def inflation_adjusted_goal (goal_amount inflation_rate : ℚ) (time_horizon : ℤ) : ℚ :=
  goal_amount * (1 + inflation_rate) ^ time_horizon

/-- Source line 96: `shortfall_or_surplus = future_value - inflation_adjusted_goal`. -/
def shortfall_or_surplus (fv goal_adj : ℚ) : ℚ := fv - goal_adj

/-- The two terminal branches of the recommendation logic (source lines 156
and 172). -/
inductive Branch : Type
  | shortfall : Branch
  | surplus : Branch
deriving DecidableEq

/-- Source line 156: `if shortfall_or_surplus < 0:` selects the shortfall
branch, `else:` (line 172) the surplus branch. -/
def recommendation_branch (gap : ℚ) : Branch :=
  if gap < 0 then Branch.shortfall else Branch.surplus

/-- Source line 157:
`additional_monthly = abs(gap) / (((1 + annual_return)**time_horizon - 1) / annual_return) / 12`.
No guard: `annual_return = 0` raises `ZeroDivisionError` (modelled `none`). -/
def additional_monthly (gap annual_return : ℚ) (time_horizon : ℤ) : Option ℚ :=
  if annual_return = 0 then none
  else some (|gap| / (((1 + annual_return) ^ time_horizon - 1) / annual_return) / 12)

/-- Source lines 127–136: `months = np.arange(1, time_horizon * 12 + 1)` and
`monthly_values = [calculate_future_value(current_savings, monthly_contribution, real_return/12, t) for t in months]`,
paired here as (month, value). -/
def monthly_values (current_savings monthly_contribution real_rate : ℚ)
    (time_horizon : ℤ) : List (ℤ × Option ℚ) :=
  (List.range (time_horizon * 12).toNat).map
    (fun (i : ℕ) => ((i : ℤ) + 1,
      calculate_future_value current_savings monthly_contribution
        (real_rate / 12) ((i : ℤ) + 1)))

/-- The argument tuple (p, c, r, t) of the base invocation of
`calculate_future_value` at source line 92. -/
def base_fv_args (s m ar ir : ℚ) (t : ℤ) : ℚ × ℚ × ℚ × ℤ :=
  (s, m * 12, real_return ar ir, t)

/-- The argument tuple of the "increase return by 1%" what-if invocation at
source line 165: `calculate_future_value(current_savings, monthly_contribution * 12, annual_return + 0.01, time_horizon)`. -/
def new_fv_args (s m ar ir : ℚ) (t : ℤ) : ℚ × ℚ × ℚ × ℤ :=
  (s, m * 12, ar + 1/100, t)

/-- The argument tuple of the "extend time horizon by 1 year" what-if
invocation at source line 170:
`calculate_future_value(current_savings, monthly_contribution * 12, annual_return, time_horizon + 1)`. -/
def extended_fv_args (s m ar ir : ℚ) (t : ℤ) : ℚ × ℚ × ℚ × ℤ :=
  (s, m * 12, ar, t + 1)

/-- Apply `calculate_future_value` to an argument tuple. -/
def apply_fv_args (a : ℚ × ℚ × ℚ × ℤ) : Option ℚ :=
  calculate_future_value a.1 a.2.1 a.2.2.1 a.2.2.2

/-- Source line 165: `new_fv`. -/
def new_fv (s m ar ir : ℚ) (t : ℤ) : Option ℚ :=
  apply_fv_args (new_fv_args s m ar ir t)

/-- Source line 170: `extended_fv`. -/
def extended_fv (s m ar ir : ℚ) (t : ℤ) : Option ℚ :=
  apply_fv_args (extended_fv_args s m ar ir t)

/-- Source line 166: the delta `new_fv - future_value` shown by `st.metric`. -/
def new_fv_delta (s m ar ir : ℚ) (t : ℤ) : Option ℚ :=
  (new_fv s m ar ir t).bind
    (fun a => (future_value s m ar ir t).map (fun b => a - b))

/-- Source line 171: the delta `extended_fv - future_value` shown by `st.metric`. -/
def extended_fv_delta (s m ar ir : ℚ) (t : ℤ) : Option ℚ :=
  (extended_fv s m ar ir t).bind
    (fun a => (future_value s m ar ir t).map (fun b => a - b))

/-- C1: for every principal p ≥ 0, annualized contribution c ≥ 0, per-period
rate r ≠ 0 (negative r permitted) and integer period count t ≥ 1,
`calculate_future_value` returns exactly the spec's formula
p·(1+r)^t + c·(((1+r)^t − 1)/r)·(1+r). -/
theorem calculate_future_value_matches_spec_formula
    (p c r : ℚ) (t : ℤ) (hp : 0 ≤ p) (hc : 0 ≤ c) (hr : r ≠ 0) (ht : 1 ≤ t) :
    calculate_future_value p c r t = some (spec_fv p c r t) := by
  have h2 : ¬(1 + r = 0 ∧ t < 0) := by rintro ⟨-, h⟩; omega
  simp [calculate_future_value, hr, h2, fv_total, fv_savings, fv_contributions,
    spec_fv]

/-- Witness for C1 at p = 10000, c = 6000, r = 1/20, t = 10. -/
theorem calculate_future_value_matches_spec_formula_witness :
    0 ≤ (10000 : ℚ) ∧ 0 ≤ (6000 : ℚ) ∧ (1/20 : ℚ) ≠ 0 ∧ (1 : ℤ) ≤ 10 ∧
    calculate_future_value 10000 6000 (1/20) 10 =
      some (spec_fv 10000 6000 (1/20) 10) :=
  ⟨by norm_num, by norm_num, by norm_num, by norm_num,
   calculate_future_value_matches_spec_formula 10000 6000 (1/20) 10
     (by norm_num) (by norm_num) (by norm_num) (by norm_num)⟩

/-- C2 (code bug): the code has no zero-rate guard, so for every p, c, t,
calling `calculate_future_value` with r = 0 divides by zero
(`ZeroDivisionError`, modelled as `none`) instead of returning the limit
p + c·t that the spec requires. -/
theorem calculate_future_value_zero_rate_raises (p c : ℚ) (t : ℤ) :
    calculate_future_value p c 0 t = none := by
  simp [calculate_future_value]

/-- C3: the inflation-adjusted goal equals goal·(1+inflation)^years, with
inflation 0 it is the goal unchanged, and at (100000, 0.02, 10) it lies
strictly between 121899 and 121900 (≈ 121,899.44). -/
theorem inflation_adjusted_goal_formula
    (g ir : ℚ) (t : ℤ) (hir : 0 ≤ ir) (ht : 0 ≤ t) :
    inflation_adjusted_goal g ir t = g * (1 + ir) ^ t ∧
    inflation_adjusted_goal g 0 t = g ∧
    121899 < inflation_adjusted_goal 100000 (2/100) 10 ∧
    inflation_adjusted_goal 100000 (2/100) 10 < 121900 := by
  refine ⟨rfl, ?_, ?_, ?_⟩
  · simp [inflation_adjusted_goal]
  · norm_num [inflation_adjusted_goal]
  · norm_num [inflation_adjusted_goal]

/-- Witness for C3 at goal = 100000, inflation = 2/100, years = 10. -/
theorem inflation_adjusted_goal_formula_witness :
    0 ≤ (2/100 : ℚ) ∧ (0 : ℤ) ≤ 10 ∧
    (inflation_adjusted_goal 100000 (2/100) 10 =
        100000 * (1 + 2/100) ^ (10 : ℤ) ∧
      inflation_adjusted_goal 100000 0 10 = 100000 ∧
      121899 < inflation_adjusted_goal 100000 (2/100) 10 ∧
      inflation_adjusted_goal 100000 (2/100) 10 < 121900) :=
  ⟨by norm_num, by norm_num,
   inflation_adjusted_goal_formula 100000 (2/100) 10 (by norm_num) (by norm_num)⟩

/-- C5: the recommendation branch is exactly the sign of the gap
future_value − inflation_adjusted_goal: shortfall iff the gap is negative,
and a gap of zero (here gap = ga − ga) selects the surplus branch. -/
theorem recommendation_branch_by_sign (fv ga : ℚ) :
    (recommendation_branch (shortfall_or_surplus fv ga) = Branch.shortfall ↔
      shortfall_or_surplus fv ga < 0) ∧
    (recommendation_branch (shortfall_or_surplus fv ga) = Branch.surplus ↔
      ¬shortfall_or_surplus fv ga < 0) ∧
    recommendation_branch (shortfall_or_surplus ga ga) = Branch.surplus := by
  refine ⟨?_, ?_, ?_⟩
  · unfold recommendation_branch; split <;> simp [*]
  · unfold recommendation_branch; split <;> simp [*]
  · simp [shortfall_or_surplus, recommendation_branch]

/-- C6 (code bug): at the Custom preset with annual return 0 and inflation
2%, the base projection succeeds and lands in the shortfall branch
(gap < 0), but the shortfall computation `additional_monthly` then divides
by the zero annual return and raises (`none`) instead of applying the
limit substitution the spec requires. -/
theorem additional_monthly_zero_return_raises :
    (future_value 10000 500 0 (2/100) 10).isSome = true ∧
    shortfall_or_surplus ((future_value 10000 500 0 (2/100) 10).getD 0)
      (inflation_adjusted_goal 100000 (2/100) 10) < 0 ∧
    additional_monthly
      (shortfall_or_surplus ((future_value 10000 500 0 (2/100) 10).getD 0)
        (inflation_adjusted_goal 100000 (2/100) 10)) 0 10 = none := by
  refine ⟨?_, ?_, ?_⟩ <;>
    norm_num [future_value, real_return, calculate_future_value, fv_total,
      fv_savings, fv_contributions, shortfall_or_surplus,
      inflation_adjusted_goal, additional_monthly]

/-- C7 counterexample: at the Custom preset defaults (savings 10000, monthly
500, return 7%, inflation 2%, horizon 10), the horizon what-if invocation
differs from the base invocation in TWO inputs — its rate (nominal 7% vs
the base's real 5%) as well as its horizon — and the return what-if's rate
differs from the base rate by 3 percentage points, not 1. -/
theorem what_if_variants_counterexample :
    (extended_fv_args 10000 500 (7/100) (2/100) 10).2.2.1 ≠
      (base_fv_args 10000 500 (7/100) (2/100) 10).2.2.1 ∧
    (extended_fv_args 10000 500 (7/100) (2/100) 10).2.2.2 ≠
      (base_fv_args 10000 500 (7/100) (2/100) 10).2.2.2 ∧
    (new_fv_args 10000 500 (7/100) (2/100) 10).2.2.1 -
      (base_fv_args 10000 500 (7/100) (2/100) 10).2.2.1 = 3/100 := by
  refine ⟨?_, ?_, ?_⟩ <;>
    norm_num [extended_fv_args, base_fv_args, new_fv_args, real_return]

/-- C7 amended: both what-if invocations keep the principal and contribution
of the base invocation but use the nominal annual return where the base
uses the real return: the return variant's rate exceeds the base rate by
inflation + 1/100 (only the rate changes), the horizon variant's rate
exceeds the base rate by the inflation rate and its horizon by 1; with
inflation 0 the return variant perturbs exactly the rate by 1/100.  Each
variant re-invokes `calculate_future_value` and its reported delta is its
value minus the base future value. -/
theorem what_if_variants_amended (s m ar ir : ℚ) (t : ℤ) :
    (new_fv_args s m ar ir t).1 = (base_fv_args s m ar ir t).1 ∧
    (new_fv_args s m ar ir t).2.1 = (base_fv_args s m ar ir t).2.1 ∧
    (new_fv_args s m ar ir t).2.2.1 =
      (base_fv_args s m ar ir t).2.2.1 + (ir + 1/100) ∧
    (new_fv_args s m ar ir t).2.2.2 = (base_fv_args s m ar ir t).2.2.2 ∧
    (extended_fv_args s m ar ir t).1 = (base_fv_args s m ar ir t).1 ∧
    (extended_fv_args s m ar ir t).2.1 = (base_fv_args s m ar ir t).2.1 ∧
    (extended_fv_args s m ar ir t).2.2.1 =
      (base_fv_args s m ar ir t).2.2.1 + ir ∧
    (extended_fv_args s m ar ir t).2.2.2 =
      (base_fv_args s m ar ir t).2.2.2 + 1 ∧
    (new_fv_args s m ar 0 t).2.2.1 = (base_fv_args s m ar 0 t).2.2.1 + 1/100 ∧
    new_fv s m ar ir t = apply_fv_args (new_fv_args s m ar ir t) ∧
    extended_fv s m ar ir t = apply_fv_args (extended_fv_args s m ar ir t) ∧
    new_fv_delta s m ar ir t =
      (new_fv s m ar ir t).bind
        (fun a => (future_value s m ar ir t).map (fun b => a - b)) ∧
    extended_fv_delta s m ar ir t =
      (extended_fv s m ar ir t).bind
        (fun a => (future_value s m ar ir t).map (fun b => a - b)) := by
  refine ⟨rfl, rfl, ?_, rfl, rfl, rfl, ?_, rfl, ?_, rfl, rfl, rfl, rfl⟩ <;>
    simp [new_fv_args, base_fv_args, extended_fv_args, real_return] <;> ring

/-- C8 counterexample: `calculate_future_value(10000, 6000, 0.05, 10)` is
defined and lies strictly between 95529 and 95530 (exactly
136000·1.05¹⁰ − 126000 ≈ 95,529.68), more than 4000 above the spec's
claimed ≈ 91,238 — so the claimed future value (and therefore the claimed
gap ≈ −30,661) does not match the formula the code computes. -/
theorem custom_preset_value_counterexample :
    (calculate_future_value 10000 6000 (1/20) 10).isSome = true ∧
    (95529 : ℚ) < (calculate_future_value 10000 6000 (1/20) 10).getD 0 ∧
    (calculate_future_value 10000 6000 (1/20) 10).getD 0 < 95530 ∧
    (91238 : ℚ) + 4000 <
      (calculate_future_value 10000 6000 (1/20) 10).getD 0 := by
  refine ⟨?_, ?_, ?_, ?_⟩ <;>
    norm_num [calculate_future_value, fv_total, fv_savings, fv_contributions]

/-- C8 amended: the Custom preset defaults (savings 10000, monthly 500, goal
100000, horizon 10, return 7%, inflation 2%) give real_return = 0.05,
future value strictly between 95529 and 95530 (≈ 95,530, not ≈ 91,238),
inflation-adjusted goal between 121899 and 121900, gap between −26370 and
−26369 (≈ −26,370, not ≈ −30,661), and the shortfall branch triggers. -/
theorem custom_preset_amended :
    real_return (7/100) (2/100) = 5/100 ∧
    (future_value 10000 500 (7/100) (2/100) 10).isSome = true ∧
    (95529 : ℚ) < (future_value 10000 500 (7/100) (2/100) 10).getD 0 ∧
    (future_value 10000 500 (7/100) (2/100) 10).getD 0 < 95530 ∧
    (121899 : ℚ) < inflation_adjusted_goal 100000 (2/100) 10 ∧
    inflation_adjusted_goal 100000 (2/100) 10 < 121900 ∧
    (-26370 : ℚ) <
      shortfall_or_surplus ((future_value 10000 500 (7/100) (2/100) 10).getD 0)
        (inflation_adjusted_goal 100000 (2/100) 10) ∧
    shortfall_or_surplus ((future_value 10000 500 (7/100) (2/100) 10).getD 0)
        (inflation_adjusted_goal 100000 (2/100) 10) < -26369 ∧
    recommendation_branch
      (shortfall_or_surplus ((future_value 10000 500 (7/100) (2/100) 10).getD 0)
        (inflation_adjusted_goal 100000 (2/100) 10)) = Branch.shortfall := by
  refine ⟨?_, ?_, ?_, ?_, ?_, ?_, ?_, ?_, ?_⟩ <;>
    norm_num [future_value, real_return, calculate_future_value, fv_total,
      fv_savings, fv_contributions, shortfall_or_surplus,
      inflation_adjusted_goal, recommendation_branch]

/-- C10 (code bug): the time-horizon input of the script has no lower bound,
so a negative horizon is not rejected: at the Custom defaults with
horizon −1 the projection still computes and returns
10000/1.05 − 6000 = 74000/21 ≈ 3523.81 instead of failing; a negative
rate (here −1%) is indeed permitted, as the claim also says. -/
theorem negative_horizon_not_rejected :
    future_value 10000 500 (7/100) (2/100) (-1) = some (74000/21) ∧
    (calculate_future_value 10000 6000 (-1/100) 10).isSome = true := by
  refine ⟨?_, ?_⟩ <;>
    norm_num [future_value, real_return, calculate_future_value, fv_total,
      fv_savings, fv_contributions]

/-- C4: for a horizon of t ≥ 1 years, the monthly series has exactly 12·t
points, the n-th point carries month index n+1 (so the indices are the
strictly increasing 1, 2, …, 12·t) and the value
`calculate_future_value(current_savings, monthly_contribution, real_return/12, month)`
with real_return = annual_return − inflation_rate. -/
theorem monthly_values_structure (s m ar ir : ℚ) (t : ℤ) (ht : 1 ≤ t) :
    (monthly_values s m (real_return ar ir) t).length = (12 * t).toNat ∧
    monthly_values s m (real_return ar ir) t =
      (List.range (12 * t).toNat).map
        (fun (i : ℕ) => ((i : ℤ) + 1,
          calculate_future_value s m (real_return ar ir / 12) ((i : ℤ) + 1))) ∧
    List.Pairwise (fun a b => a.1 < b.1)
      (monthly_values s m (real_return ar ir) t) := by
  have h12 : (t * 12).toNat = (12 * t).toNat := by rw [mul_comm]
  refine ⟨?_, ?_, ?_⟩
  · unfold monthly_values
    rw [List.length_map, List.length_range, h12]
  · unfold monthly_values; rw [h12]
  · unfold monthly_values
    rw [List.pairwise_map]
    refine List.Pairwise.imp ?_ (List.pairwise_lt_range _)
    intro a b hab
    show (a : ℤ) + 1 < (b : ℤ) + 1
    omega

/-- Witness for C4 at the Custom defaults with horizon 1 year. -/
theorem monthly_values_structure_witness :
    (1 : ℤ) ≤ 1 ∧
    ((monthly_values 10000 500 (real_return (7/100) (2/100)) 1).length =
        ((12 : ℤ) * 1).toNat ∧
      monthly_values 10000 500 (real_return (7/100) (2/100)) 1 =
        (List.range ((12 : ℤ) * 1).toNat).map
          (fun (i : ℕ) => ((i : ℤ) + 1,
            calculate_future_value 10000 500 (real_return (7/100) (2/100) / 12)
              ((i : ℤ) + 1))) ∧
      List.Pairwise (fun a b => a.1 < b.1)
        (monthly_values 10000 500 (real_return (7/100) (2/100)) 1)) :=
  ⟨by norm_num,
   monthly_values_structure 10000 500 (7/100) (2/100) 1 (by norm_num)⟩

/-- For a nonzero rate the geometric-series identity turns the contribution
term into c·(∑_{i<n} (1+r)^i)·(1+r): the returned total is the lump sum
plus an annuity-due sum of compounded deposits. -/
theorem fv_total_sum_form (p c r : ℚ) (n : ℕ) (hr : r ≠ 0) :
    fv_total p c r (n : ℤ) =
      p * (1 + r) ^ n +
        c * (∑ i in Finset.range n, (1 + r) ^ i) * (1 + r) := by
  have hx : (1 + r) ≠ 1 := fun h => hr (by linarith)
  rw [fv_total, fv_savings, fv_contributions]
  simp only [zpow_natCast]
  rw [geom_sum_eq hx]
  have h1 : (1 : ℚ) + r - 1 = r := by ring
  rw [h1]

/-- C9: for p ≥ 0, c ≥ 0, r > 0, t ≥ 1 the calculator succeeds, and the
returned value is monotonically non-decreasing in each of principal,
contribution, rate and period count independently. -/
theorem future_value_monotone (p p' c c' r r' : ℚ) (t t' : ℤ)
    (hp : 0 ≤ p) (hc : 0 ≤ c) (hr : 0 < r) (ht : 1 ≤ t) :
    calculate_future_value p c r t = some (fv_total p c r t) ∧
    (p ≤ p' → fv_total p c r t ≤ fv_total p' c r t) ∧
    (c ≤ c' → fv_total p c r t ≤ fv_total p c' r t) ∧
    (r ≤ r' → fv_total p c r t ≤ fv_total p c r' t) ∧
    (t ≤ t' → fv_total p c r t ≤ fv_total p c r t') := by
  have hr0 : r ≠ 0 := ne_of_gt hr
  have htn : t = ((t.toNat : ℕ) : ℤ) := (Int.toNat_of_nonneg (by omega)).symm
  have hx0 : (0 : ℚ) ≤ 1 + r := by linarith
  have hx1 : (1 : ℚ) ≤ 1 + r := by linarith
  refine ⟨?_, ?_, ?_, ?_, ?_⟩
  · have h2 : ¬(1 + r = 0 ∧ t < 0) := by rintro ⟨h, -⟩; linarith
    simp [calculate_future_value, hr0, h2]
  · intro hpp
    rw [htn, fv_total_sum_form p c r t.toNat hr0,
      fv_total_sum_form p' c r t.toNat hr0]
    exact add_le_add
      (mul_le_mul_of_nonneg_right hpp (pow_nonneg hx0 _)) le_rfl
  · intro hcc
    rw [htn, fv_total_sum_form p c r t.toNat hr0,
      fv_total_sum_form p c' r t.toNat hr0]
    have hS : (0 : ℚ) ≤ ∑ i in Finset.range t.toNat, (1 + r) ^ i :=
      Finset.sum_nonneg fun i _ => pow_nonneg hx0 i
    exact add_le_add le_rfl
      (mul_le_mul_of_nonneg_right
        (mul_le_mul_of_nonneg_right hcc hS) hx0)
  · intro hrr
    have hr'0 : r' ≠ 0 := by intro h; rw [h] at hrr; linarith
    rw [htn, fv_total_sum_form p c r t.toNat hr0,
      fv_total_sum_form p c r' t.toNat hr'0]
    have hxx : (1 : ℚ) + r ≤ 1 + r' := by linarith
    have hS' : (0 : ℚ) ≤ ∑ i in Finset.range t.toNat, (1 + r') ^ i :=
      Finset.sum_nonneg fun i _ => pow_nonneg (by linarith) i
    have hsum : (∑ i in Finset.range t.toNat, (1 + r) ^ i) ≤
        ∑ i in Finset.range t.toNat, (1 + r') ^ i :=
      Finset.sum_le_sum fun i _ => pow_le_pow_left₀ hx0 hxx i
    refine add_le_add
      (mul_le_mul_of_nonneg_left (pow_le_pow_left₀ hx0 hxx _) hp) ?_
    exact mul_le_mul (mul_le_mul_of_nonneg_left hsum hc) hxx hx0
      (mul_nonneg hc hS')
  · intro htt
    have htn' : t' = ((t'.toNat : ℕ) : ℤ) := (Int.toNat_of_nonneg (by omega)).symm
    have hnn : t.toNat ≤ t'.toNat := by omega
    rw [htn, htn', fv_total_sum_form p c r t.toNat hr0,
      fv_total_sum_form p c r t'.toNat hr0]
    have hsub : Finset.range t.toNat ⊆ Finset.range t'.toNat :=
      Finset.range_subset.2 hnn
    have hsum : (∑ i in Finset.range t.toNat, (1 + r) ^ i) ≤
        ∑ i in Finset.range t'.toNat, (1 + r) ^ i :=
      Finset.sum_le_sum_of_subset_of_nonneg hsub
        fun i _ _ => pow_nonneg hx0 i
    exact add_le_add
      (mul_le_mul_of_nonneg_left (pow_le_pow_right₀ hx1 hnn) hp)
      (mul_le_mul_of_nonneg_right
        (mul_le_mul_of_nonneg_left hsum hc) hx0)

/-- Witness for C9 at p = 1 ≤ p' = 2, c = 1 ≤ c' = 2, r = 1/10 ≤ r' = 1/5,
t = 2 ≤ t' = 3. -/
theorem future_value_monotone_witness :
    0 ≤ (1 : ℚ) ∧ 0 ≤ (1 : ℚ) ∧ 0 < (1/10 : ℚ) ∧ (1 : ℤ) ≤ 2 ∧
    (calculate_future_value 1 1 (1/10) 2 = some (fv_total 1 1 (1/10) 2) ∧
      ((1 : ℚ) ≤ 2 → fv_total 1 1 (1/10) 2 ≤ fv_total 2 1 (1/10) 2) ∧
      ((1 : ℚ) ≤ 2 → fv_total 1 1 (1/10) 2 ≤ fv_total 1 2 (1/10) 2) ∧
      ((1/10 : ℚ) ≤ 1/5 → fv_total 1 1 (1/10) 2 ≤ fv_total 1 1 (1/5) 2) ∧
      ((2 : ℤ) ≤ 3 → fv_total 1 1 (1/10) 2 ≤ fv_total 1 1 (1/10) 3)) :=
  ⟨by norm_num, by norm_num, by norm_num, by norm_num,
   future_value_monotone 1 2 1 2 (1/10) (1/5) 2 3
     (by norm_num) (by norm_num) (by norm_num) (by norm_num)⟩
